import Mathlib

/-!
Shallow embedding of the weather-friend repository (Python) in Lean 4.

Source files embedded:
  * `weather_friend/models/weather.py`   — `WeatherData`, `temp_range_summary`
  * `weather_friend/config.py`           — `Settings`, `__post_init__`, `from_env`
  * `weather_friend/services/weather_service.py` — `WeatherService.get_current_weather`
  * `weather_friend/services/message_service.py` — `MessageService.generate_forecast_message`
  * `weather_friend/cogs/weather.py`     — `WeatherCog` (slash command, its error
    handler, the scheduled loop tick, the loop error handler) and `_build_embed`

Python `float` values are embedded as `ℚ` (concrete rationals are written with
`mkRat` so that they evaluate by kernel reduction); machine-level binary64
artefacts are outside the model, but every numeric literal appearing in the
claims is either dyadic or far from a rounding tie, so `ℚ` and binary64 agree
on all inputs used here.  Effectful calls (HTTP, the text-generation provider,
Discord acknowledgements and sends) are embedded as explicit outcome
parameters, and each handler returns the ordered list of boundary actions it
performed, so that ordering and counting claims are statable.
-/

namespace WeatherFriend

/-! ### Python numeric and string primitives -/

/-- Value of a list of decimal digit characters (most significant first).
Used by the models of Python `int(str)` / `float(str)`. -/
def digitsToNat (l : List Char) : Nat :=
  l.foldl (fun a c => 10 * a + (c.toNat - 48)) 0

/-- Model of Python `int(s)` for a base-10 string: optional sign followed by at
least one digit.  (Python additionally strips whitespace and allows `_`
separators; those inputs do not occur in any claim.) -/
def pyIntOfString (s : String) : Option Int :=
  match s.toList with
  | '-' :: rest =>
      if rest ≠ [] ∧ rest.all Char.isDigit then some (-(digitsToNat rest : Int)) else none
  | '+' :: rest =>
      if rest ≠ [] ∧ rest.all Char.isDigit then some (digitsToNat rest : Int) else none
  | l =>
      if l ≠ [] ∧ l.all Char.isDigit then some (digitsToNat l : Int) else none

/-- Model of the unsigned core of Python `float(s)`: digits, optionally with a
decimal point (`"12"`, `"12.5"`, `".5"`, `"12."`).  Exponents, `inf`/`nan`,
whitespace and `_` separators are outside the model; no claim needs them. -/
def pyFloatDigits (l : List Char) : Option ℚ :=
  let ip := l.takeWhile (fun c => c ≠ '.')
  match l.drop ip.length with
  | [] =>
      if ip ≠ [] ∧ ip.all Char.isDigit then some (digitsToNat ip : ℚ) else none
  | '.' :: fp =>
      if (ip ≠ [] ∨ fp ≠ []) ∧ ip.all Char.isDigit ∧ fp.all Char.isDigit then
        some ((digitsToNat ip : ℚ) + (digitsToNat fp : ℚ) / (10 : ℚ) ^ fp.length)
      else none
  | _ => none

/-- Model of Python `float(s)` on strings: optional sign then `pyFloatDigits`. -/
def pyFloatOfString (s : String) : Option ℚ :=
  match s.toList with
  | '-' :: rest => (pyFloatDigits rest).map Neg.neg
  | '+' :: rest => pyFloatDigits rest
  | l => pyFloatDigits l

/-- Truncation toward zero, the behaviour of Python `int(x)` on a float. -/
def ratTruncate (q : ℚ) : Int :=
  if 0 ≤ q then Rat.floor q else Rat.ceil q

/-- Round to the nearest integer, ties to even: the rounding used by CPython's
fixed-point formatting `f"{x:.0f}"` (IEEE-754 default rounding applied when
producing the decimal rendering).  Written with integer arithmetic on the
numerator/denominator — `2 * q.num - 2 * Rat.floor q * q.den` is
`2 * q.den * (q - ⌊q⌋)`, so comparing it with `q.den` compares the fractional
part with `1/2` — so that concrete instances evaluate by kernel reduction;
`roundHalfEven_nearest` and `roundHalfEven_tie` characterise it abstractly. -/
def roundHalfEven (q : ℚ) : Int :=
  if 2 * q.num - 2 * Rat.floor q * (q.den : Int) < (q.den : Int) then Rat.floor q
  else if (q.den : Int) < 2 * q.num - 2 * Rat.floor q * (q.den : Int) then Rat.floor q + 1
  else if Rat.floor q % 2 = 0 then Rat.floor q else Rat.floor q + 1

/-- Model of Python `f"{x:.0f}"`.  Fixed-point formatting keeps the sign of the
value, so a negative value that rounds to zero renders as `"-0"` (as in C's
`printf("%.0f", -0.4)`, whose behaviour CPython's float formatting follows). -/
def pyFormatDot0f (q : ℚ) : String :=
  if roundHalfEven q = 0 ∧ q < 0 then "-0" else toString (roundHalfEven q)

/-! ### `weather_friend/models/weather.py` -/

/-- Embedding of the frozen dataclass `WeatherData`. -/
structure WeatherData where
  city : String
  temp_f : ℚ
  feels_like_f : ℚ
  humidity : Int
  description : String
  wind_speed_mph : ℚ
  high_f : ℚ
  low_f : ℚ
  icon : String
deriving DecidableEq, Repr

/-- Embedding of the property `WeatherData.temp_range_summary`:
`f"{self.low_f:.0f}°F – {self.high_f:.0f}°F"`. -/
def WeatherData.temp_range_summary (w : WeatherData) : String :=
  pyFormatDot0f w.low_f ++ "°F – " ++ pyFormatDot0f w.high_f ++ "°F"

/-! ### `weather_friend/config.py` -/

/-- Embedding of the frozen dataclass `Settings` (fields only; the range
validation performed by `__post_init__` lives in `Settings.make`). -/
structure Settings where
  discord_token : String
  discord_channel_id : Int
  openweather_api_key : String
  anthropic_api_key : String
  latitude : ℚ
  longitude : ℚ
  city_name : String
  morning_hour : Int
  morning_minute : Int
deriving DecidableEq, Repr

/-- Default `latitude` (`37.3382` in the source). -/
def defaultLatitude : ℚ := mkRat 373382 10000

/-- Default `longitude` (`-121.8863` in the source). -/
def defaultLongitude : ℚ := mkRat (-1218863) 10000

/-- Default `city_name`. -/
def defaultCityName : String := "San Jose"

/-- Embedding of constructing a `Settings` value: the dataclass `__init__`
immediately followed by `__post_init__` (config.py lines 33–44), which raises
`ValueError` when `morning_hour` or `morning_minute` is out of range and never
alters a field.  The `Except.error` payload is the `ValueError` message. -/
def Settings.make (discord_token : String) (discord_channel_id : Int)
    (openweather_api_key : String) (anthropic_api_key : String)
    (latitude : ℚ := defaultLatitude) (longitude : ℚ := defaultLongitude)
    (city_name : String := defaultCityName)
    (morning_hour : Int := 7) (morning_minute : Int := 0) :
    Except String Settings :=
  if ¬(0 ≤ morning_hour ∧ morning_hour ≤ 23) then
    .error ("morning_hour must be 0-23, got " ++ toString morning_hour)
  else if ¬(0 ≤ morning_minute ∧ morning_minute ≤ 59) then
    .error ("morning_minute must be 0-59, got " ++ toString morning_minute)
  else
    .ok ⟨discord_token, discord_channel_id, openweather_api_key, anthropic_api_key,
         latitude, longitude, city_name, morning_hour, morning_minute⟩

/-- An operating-system environment: variable name to value, `none` = unset. -/
def Env : Type := String → Option String

/-- Embedding of `Settings.from_env` (config.py lines 46–63): reads the four
required variables (`KeyError` when one is missing — modelled as an
`Except.error` naming the variable), parses `DISCORD_CHANNEL_ID` with `int(…)`
(`ValueError` on failure), and passes no other argument, so every optional
field keeps its dataclass default. -/
def Settings.from_env (env : Env) : Except String Settings :=
  match env "DISCORD_TOKEN" with
  | none => .error "KeyError: DISCORD_TOKEN"
  | some token =>
    match env "DISCORD_CHANNEL_ID" with
    | none => .error "KeyError: DISCORD_CHANNEL_ID"
    | some chidStr =>
      match pyIntOfString chidStr with
      | none => .error "ValueError: invalid literal for int"
      | some chid =>
        match env "OPENWEATHER_API_KEY" with
        | none => .error "KeyError: OPENWEATHER_API_KEY"
        | some owKey =>
          match env "ANTHROPIC_API_KEY" with
          | none => .error "KeyError: ANTHROPIC_API_KEY"
          | some anKey => Settings.make token chid owKey anKey

/-! ### `weather_friend/services/weather_service.py` -/

/-- JSON values as delivered by `response.json()`.  Python distinguishes ints
and floats in decoded JSON; `int` and `num` mirror that. -/
inductive Json where
  | null : Json
  | bool (b : Bool) : Json
  | int (n : Int) : Json
  | num (q : ℚ) : Json
  | str (s : String) : Json
  | arr (xs : List Json) : Json
  | obj (kvs : List (String × Json)) : Json

/-- Python subscription `j[k]` on a decoded JSON value: `KeyError` when the key
is missing, `TypeError` when `j` is not a dict — both modelled as `none`. -/
def Json.getItem (j : Json) (k : String) : Option Json :=
  match j with
  | .obj kvs => kvs.lookup k
  | _ => none

/-- Python subscription `j[i]` for a list: `IndexError` / `TypeError` as `none`. -/
def Json.getIndex (j : Json) (i : Nat) : Option Json :=
  match j with
  | .arr xs => xs.get? i
  | _ => none

/-- Model of Python `float(x)` on a decoded JSON value: floats and ints (and
bools, which are ints in Python) convert; numeric strings parse; `None`, lists
and dicts raise `TypeError` (`none`). -/
def pyFloat (j : Json) : Option ℚ :=
  match j with
  | .num q => some q
  | .int n => some (n : ℚ)
  | .bool b => some (if b then 1 else 0)
  | .str s => pyFloatOfString s
  | _ => none

/-- Model of Python `int(x)` on a decoded JSON value: ints and bools convert;
floats truncate toward zero; base-10 strings parse; anything else raises. -/
def pyInt (j : Json) : Option Int :=
  match j with
  | .int n => some n
  | .bool b => some (if b then 1 else 0)
  | .num q => some (ratTruncate q)
  | .str s => pyIntOfString s
  | _ => none

/-- Model of Python `str(x)`: total — `str` never raises.  The renderings of
floats and containers are abbreviated here (no claim ever inspects them; what
matters for the claims is totality). -/
def pyStr (j : Json) : String :=
  match j with
  | .str s => s
  | .int n => toString n
  | .bool b => if b then "True" else "False"
  | .null => "None"
  | .num q => toString q
  | .arr _ => "[...]"
  | .obj _ => "\x7b...\x7d"

/-- Embedding of the parsing part of `WeatherService.get_current_weather`
(weather_service.py lines 70–84): subscript `main`, `weather[0]`, `wind`, then
build `WeatherData` with `float(…)`/`int(…)`/`str(…)` coercions of the eight
leaf fields; `city` is the service's configured display name, not read from
the response.  Any `KeyError`/`IndexError`/`TypeError`/`ValueError` is `none`. -/
def parse_weather_data (city : String) (data : Json) : Option WeatherData :=
  (data.getItem "main").bind fun main =>
  (data.getItem "weather").bind fun weatherArr =>
  (weatherArr.getIndex 0).bind fun weather =>
  (data.getItem "wind").bind fun wind =>
  ((main.getItem "temp").bind pyFloat).bind fun temp_f =>
  ((main.getItem "feels_like").bind pyFloat).bind fun feels_like_f =>
  ((main.getItem "humidity").bind pyInt).bind fun humidity =>
  (weather.getItem "description").bind fun descriptionJson =>
  ((wind.getItem "speed").bind pyFloat).bind fun wind_speed =>
  ((main.getItem "temp_max").bind pyFloat).bind fun high_f =>
  ((main.getItem "temp_min").bind pyFloat).bind fun low_f =>
  (weather.getItem "icon").bind fun iconJson =>
  some (WeatherData.mk city temp_f feels_like_f humidity (pyStr descriptionJson)
        wind_speed high_f low_f (pyStr iconJson))

/-- Failure modes of `get_current_weather`: `httpx.RequestError` (transport),
`httpx.HTTPStatusError` (non-2xx, code preserved by `raise_for_status`), or a
parsing failure (`KeyError`/`TypeError`/`ValueError`/`IndexError`). -/
inductive FetchError where
  | network (detail : String) : FetchError
  | httpStatus (code : Nat) : FetchError
  | malformed : FetchError
deriving DecidableEq, Repr

/-- Embedding of `WeatherService.get_current_weather` (weather_service.py
lines 38–84) over an explicit HTTP outcome: a transport failure, or a status
code with a decoded JSON body.  `raise_for_status` raises for every 4xx/5xx. -/
def get_current_weather (city : String) (response : Except String (Nat × Json)) :
    Except FetchError WeatherData :=
  match response with
  | .error e => .error (.network e)
  | .ok (status, body) =>
      if 400 ≤ status then .error (.httpStatus status)
      else
        match parse_weather_data city body with
        | some w => .ok w
        | none => .error .malformed

/-- The spec's description of the response shape the service must accept: the
eight leaf fields present and of the stated types (`main.temp`,
`main.feels_like`, `main.temp_max`, `main.temp_min`, `wind.speed` numbers;
`main.humidity` an integer; `weather[0].description` and `weather[0].icon`
strings).  Used to compare the claim against the implementation's actual
acceptance condition. -/
def specWellTyped (data : Json) : Bool :=
  match data.getItem "main", (data.getItem "weather").bind (Json.getIndex · 0),
      data.getItem "wind" with
  | some main, some w0, some wind =>
      (match main.getItem "temp" with | some (.num _) | some (.int _) => true | _ => false) &&
      (match main.getItem "feels_like" with | some (.num _) | some (.int _) => true | _ => false) &&
      (match main.getItem "humidity" with | some (.int _) => true | _ => false) &&
      (match w0.getItem "description" with | some (.str _) => true | _ => false) &&
      (match wind.getItem "speed" with | some (.num _) | some (.int _) => true | _ => false) &&
      (match main.getItem "temp_max" with | some (.num _) | some (.int _) => true | _ => false) &&
      (match main.getItem "temp_min" with | some (.num _) | some (.int _) => true | _ => false) &&
      (match w0.getItem "icon" with | some (.str _) => true | _ => false)
  | _, _, _ => false

/-- The implementation's actual acceptance condition: the three containers
subscript successfully and every leaf coerces under Python
`float(…)`/`int(…)` — which also accepts numeric strings, bools and (for
`int`) non-integral floats — while `str(…)` accepts anything present. -/
def implAccepts (data : Json) : Bool :=
  match data.getItem "main" with
  | none => false
  | some main =>
    match data.getItem "weather" with
    | none => false
    | some weatherArr =>
      match weatherArr.getIndex 0 with
      | none => false
      | some w0 =>
        match data.getItem "wind" with
        | none => false
        | some wind =>
          ((main.getItem "temp").bind pyFloat).isSome &&
          ((main.getItem "feels_like").bind pyFloat).isSome &&
          ((main.getItem "humidity").bind pyInt).isSome &&
          (w0.getItem "description").isSome &&
          ((wind.getItem "speed").bind pyFloat).isSome &&
          ((main.getItem "temp_max").bind pyFloat).isSome &&
          ((main.getItem "temp_min").bind pyFloat).isSome &&
          (w0.getItem "icon").isSome

/-! ### `weather_friend/services/message_service.py` -/

/-- One content block of a text-generation response (`response.content[i]`). -/
structure ContentBlock where
  text : String
deriving DecidableEq, Repr

/-- A successful text-generation API response: a list of content blocks. -/
structure ClaudeResponse where
  content : List ContentBlock
deriving DecidableEq, Repr

/-- The model identifier pinned in message_service.py. -/
def CLAUDE_MODEL : String := "claude-sonnet-4-5-20250929"

/-- The fixed system prompt of message_service.py (lines 13–33). -/
def ORACLE_SYSTEM_PROMPT : String :=
  "You are the Oracle of the Skies — a friendly weather guide with a touch " ++
  "of mystical charm who posts daily forecasts in a Discord server.\n\n" ++
  "Your personality:\n" ++
  "- Warm and approachable with a light mystical flair\n" ++
  "- Occasional celestial or elemental nods (the stars suggest, " ++
  "the winds carry, etc.) but don\x27t overdo it\n" ++
  "- Include one relevant emoji per sentence (no more)\n\n" ++
  "Your PRIMARY purpose is practical clothing advice:\n" ++
  "- List specific clothing suggestions suitable for ALL genders\n" ++
  "- Cover layers, footwear, and accessories as the weather warrants\n" ++
  "- Be concrete: name actual items (light jacket, sunglasses, umbrella, " ++
  "breathable t-shirt, sneakers, etc.)\n" ++
  "- Adapt suggestions to the temperature range and conditions\n\n" ++
  "Message format (keep it to 4-6 sentences total):\n" ++
  "1. A brief weather summary with a hint of Oracle personality\n" ++
  "2. Clear clothing recommendations (the main event)\n" ++
  "3. A short, warm sign-off (a small blessing or encouraging word)\n\n" ++
  "Strike a balance: be helpful first, charming second. " ++
  "Think friendly neighborhood fortune teller, not Shakespeare."

/-- The request `messages.create` is handed (message_service.py lines 86–91):
model identifier, output-token budget, system prompt, one user message. -/
structure ClaudeRequest where
  model : String
  max_tokens : Nat
  system : String
  userContent : String
deriving DecidableEq, Repr

/-- Embedding of `USER_PROMPT_TEMPLATE.format(...)` (message_service.py lines
35–43 and 74–83): every float field is rendered with `:.0f`, humidity with
plain `str`. -/
def build_user_prompt (w : WeatherData) : String :=
  "Here is today's weather for " ++ w.city ++ ":\n\n" ++
  "- Temperature: " ++ pyFormatDot0f w.temp_f ++ "°F (feels like " ++
    pyFormatDot0f w.feels_like_f ++ "°F)\n" ++
  "- Conditions: " ++ w.description ++ "\n" ++
  "- High/Low: " ++ pyFormatDot0f w.high_f ++ "°F / " ++ pyFormatDot0f w.low_f ++ "°F\n" ++
  "- Humidity: " ++ toString w.humidity ++ "%\n" ++
  "- Wind: " ++ pyFormatDot0f w.wind_speed_mph ++ " mph\n\n" ++
  "Generate a morning weather forecast with practical clothing suggestions."

/-- Failure modes of `generate_forecast_message`: `anthropic.APIError`
propagated unchanged (payload preserved), or the explicit
`ValueError("Claude returned an empty response")`. -/
inductive MsgError where
  | generation (detail : String) : MsgError
  | emptyResponse : MsgError
deriving DecidableEq, Repr

/-- The request `generate_forecast_message` sends: the pinned model, a
300-token output budget, the fixed system prompt and the templated user
prompt (message_service.py lines 86–91). -/
def claude_request (weather : WeatherData) : ClaudeRequest :=
  ⟨CLAUDE_MODEL, 300, ORACLE_SYSTEM_PROMPT, build_user_prompt weather⟩

/-- Embedding of `MessageService.generate_forecast_message` (message_service.py
lines 61–100).  `provider req n` is the outcome of the `(n+1)`-st
`messages.create` call with request `req`; the source performs exactly one
call (line 86) and no local retry, so only call `0` is consulted. -/
def generate_forecast_message (provider : ClaudeRequest → Nat → Except String ClaudeResponse)
    (weather : WeatherData) : Except MsgError String :=
  match provider (claude_request weather) 0 with
  | .error e => .error (.generation e)
  | .ok response =>
      match response.content with
      | [] => .error .emptyResponse
      | c :: _ => .ok c.text

/-! ### `weather_friend/cogs/weather.py` -/

/-- One labelled field of a Discord embed (`Embed.add_field`). -/
structure EmbedField where
  name : String
  value : String
  inline : Bool
deriving DecidableEq, Repr

/-- The structured message payload assembled by `_build_embed`: a
`discord.Embed` restricted to the attributes the cog sets. -/
structure Embed where
  title : String
  description : String
  color : Nat
  thumbnail_url : String
  fields : List EmbedField
  footer_text : String
deriving DecidableEq, Repr

/-- `discord.Color.purple()` = `0x9b59b6`. -/
def DISCORD_PURPLE : Nat := 0x9b59b6

/-- Embedding of `_build_embed` (weather.py lines 166–203): a pure function of
the message and the weather record — fixed title and colour, the message
verbatim as the body, a thumbnail URL derived from the icon code, three inline
summary fields in fixed order, and a footer naming the record's city. -/
def build_embed (message : String) (weather : WeatherData) : Embed :=
  let icon_url : String := "https://openweathermap.org/img/wn/" ++ weather.icon ++ "@2x.png"
  { title := "🔮 The Oracle Speaks"
    description := message
    color := DISCORD_PURPLE
    thumbnail_url := icon_url
    fields :=
      [⟨"🌡️ Temperature", weather.temp_range_summary, true⟩,
       ⟨"💧 Humidity", toString weather.humidity ++ "%", true⟩,
       ⟨"💨 Wind", pyFormatDot0f weather.wind_speed_mph ++ " mph", true⟩]
    footer_text := "Weather for " ++ weather.city ++ " • Blessed be your day ✨" }

/-- An exception escaping one of the pipeline stages (or a Discord send):
`discord.DiscordException`, a weather-fetch failure, or a generation failure. -/
inductive PipelineError where
  | discord (detail : String) : PipelineError
  | fetch (e : FetchError) : PipelineError
  | gen (e : MsgError) : PipelineError
deriving DecidableEq, Repr

/-- Boundary actions performed by the slash-command path, in order. -/
inductive CmdAction where
  | ack : CmdAction
  | fetchWeather : CmdAction
  | generateMessage : CmdAction
  | followupEmbed (e : Embed) : CmdAction
  | followupNotice (text : String) : CmdAction
  | responseNotice (text : String) (ephemeral : Bool) : CmdAction
  | logCommandError : CmdAction
  | logNoticeFailure : CmdAction
deriving DecidableEq, Repr

/-- Whether an action is the delivery of an embed on the follow-up channel. -/
def isFollowupEmbed : CmdAction → Bool
  | .followupEmbed _ => true
  | _ => false

/-- Whether an action is a user-facing notice (follow-up or initial
response). -/
def isUserNotice : CmdAction → Bool
  | .followupNotice _ => true
  | .responseNotice _ _ => true
  | _ => false

/-- Outcomes of the awaited calls the `/weather` command makes, in program
order: `interaction.response.defer()`, the weather fetch, the generation call,
`interaction.followup.send(embed=…)`, and — used only by the error handler —
the outcome of sending the failure notice.  A `String` error payload stands
for a `discord.DiscordException`. -/
structure CmdEnv where
  ack : Except String Unit
  fetch : Except FetchError WeatherData
  gen : Except MsgError String
  followupSend : Except String Unit
  noticeSend : Except String Unit

/-- Embedding of `WeatherCog.weather_command` (weather.py lines 68–80):
defer first, then fetch → generate → build → follow-up send, each awaited
call recorded as an action; the first raised exception aborts the body and is
returned for the host's error dispatch. -/
def weather_command (env : CmdEnv) : Except PipelineError Unit × List CmdAction :=
  match env.ack with
  | .error e => (.error (.discord e), [CmdAction.ack])
  | .ok _ =>
    match env.fetch with
    | .error e => (.error (.fetch e), [CmdAction.ack, CmdAction.fetchWeather])
    | .ok weather =>
      match env.gen with
      | .error e =>
          (.error (.gen e),
           [CmdAction.ack, CmdAction.fetchWeather, CmdAction.generateMessage])
      | .ok message =>
        let embed := build_embed message weather
        match env.followupSend with
        | .error e =>
            (.error (.discord e),
             [CmdAction.ack, CmdAction.fetchWeather, CmdAction.generateMessage,
              CmdAction.followupEmbed embed])
        | .ok _ =>
            (.ok (),
             [CmdAction.ack, CmdAction.fetchWeather, CmdAction.generateMessage,
              CmdAction.followupEmbed embed])

/-- The generic user-facing failure notice sent by the error handler. -/
def ORACLE_FAILURE_NOTICE : String :=
  "🌫️ The Oracle\x27s vision is clouded. Try again shortly."

/-- `interaction.response.is_done()` at error-handling time: true exactly when
`defer()` completed successfully. -/
def response_is_done (env : CmdEnv) : Bool :=
  env.ack.isOk

/-- Embedding of `WeatherCog.weather_error` (weather.py lines 82–108): log,
then send one generic notice — on the follow-up channel when the response is
done, otherwise as the initial (ephemeral) response; a `DiscordException` from
that send is caught and logged, so the handler always returns normally. -/
def weather_error (is_done : Bool) (noticeSend : Except String Unit) : List CmdAction :=
  let notice : CmdAction :=
    if is_done then CmdAction.followupNotice ORACLE_FAILURE_NOTICE
    else CmdAction.responseNotice ORACLE_FAILURE_NOTICE true
  match noticeSend with
  | .ok _ => [CmdAction.logCommandError, notice]
  | .error _ => [CmdAction.logCommandError, notice, CmdAction.logNoticeFailure]

/-- Modelled from the spec: the host chat-platform boundary for interactive
invocations (§6(f)) — when the command coroutine raises, the platform invokes
the registered error callback (`weather_error`) and does not terminate the
process.  The first component is the exception escaping to the host runtime,
if any; `weather_error` is total (its own send failures are caught in the
source), so none ever does. -/
def handle_weather_invocation (env : CmdEnv) : Option PipelineError × List CmdAction :=
  match weather_command env with
  | (.ok _, acts) => (none, acts)
  | (.error _, acts) =>
      (none, acts ++ weather_error (response_is_done env) env.noticeSend)

/-- A resolved Discord channel: its id and whether it is an instance of
`discord.abc.Messageable` (a postable destination). -/
structure ChannelRef where
  id : Int
  messageable : Bool
deriving DecidableEq, Repr

/-- Boundary actions performed by a scheduled tick, in order. -/
inductive TickAction where
  | fetchWeather : TickAction
  | generateMessage : TickAction
  | channelSend (channelId : Int) (e : Embed) : TickAction
  | logWarning : TickAction
  | logTickError : TickAction
deriving DecidableEq, Repr

/-- Outcomes of the external calls a scheduled tick makes: channel resolution
(`bot.get_channel`), the weather fetch, the generation call, and
`channel.send(embed=…)`. -/
structure TickEnv where
  get_channel : Int → Option ChannelRef
  fetch : Except FetchError WeatherData
  gen : Except MsgError String
  send : Except String Unit

/-- Embedding of the tick body `WeatherCog.morning_forecast` (weather.py lines
110–125): resolve the configured channel; when it is `None` or not
`Messageable`, log a warning and return before touching the weather client;
otherwise fetch → generate → build → send to that channel.  The first raised
exception aborts the body and is handed to the loop's error callback. -/
def morning_forecast (settings : Settings) (env : TickEnv) :
    Option PipelineError × List TickAction :=
  match env.get_channel settings.discord_channel_id with
  | none => (none, [TickAction.logWarning])
  | some ch =>
    if ch.messageable then
      match env.fetch with
      | .error e => (some (.fetch e), [TickAction.fetchWeather])
      | .ok weather =>
        match env.gen with
        | .error e => (some (.gen e), [TickAction.fetchWeather, TickAction.generateMessage])
        | .ok message =>
          let embed := build_embed message weather
          match env.send with
          | .error e =>
              (some (.discord e),
               [TickAction.fetchWeather, TickAction.generateMessage,
                TickAction.channelSend ch.id embed])
          | .ok _ =>
              (none,
               [TickAction.fetchWeather, TickAction.generateMessage,
                TickAction.channelSend ch.id embed])
    else (none, [TickAction.logWarning])

/-- Embedding of `WeatherCog.on_morning_forecast_error` (weather.py lines
132–142): log the tick's exception and return normally. -/
def on_morning_forecast_error (_error : PipelineError) : List TickAction :=
  [TickAction.logTickError]

/-- The daily loop's schedule state: armed (ticking) / cancelled. -/
structure LoopState where
  armed : Bool
  cancelled : Bool
deriving DecidableEq, Repr

/-- The loop fires once every 24 hours (`tasks.loop(hours=24)`, rescheduled by
`cog_load` to the configured wall-clock time — still one tick per day). -/
def loop_interval_hours : Nat := 24

/-- Modelled from the spec: the chat-library scheduled-loop boundary (§6(g))
— the loop machinery runs the tick body, and when the body raises it invokes
the registered error callback (`on_morning_forecast_error`) without
terminating the process; the loop's schedule state is not altered by the tick
and the next tick is scheduled one interval later.  Returns (state after the
tick, exception escaping the tick handler if any, hours until the next tick,
actions performed). -/
def loop_tick (st : LoopState) (settings : Settings) (env : TickEnv) :
    LoopState × Option PipelineError × Nat × List TickAction :=
  match morning_forecast settings env with
  | (none, acts) => (st, none, loop_interval_hours, acts)
  | (some e, acts) => (st, none, loop_interval_hours, acts ++ on_morning_forecast_error e)

/-! ### Concrete sample inputs (used by witnesses and counterexamples) -/

/-- The sample weather record of the spec's end-to-end scenario (§8). -/
def sampleWeather : WeatherData :=
  ⟨"San Jose", 68, 65, 55, "scattered clouds", 8, 74, 58, "03d"⟩

/-- `sampleWeather` with the rounding example's bounds `59.4` / `75.6`. -/
def roundingExampleWeather : WeatherData :=
  { sampleWeather with low_f := mkRat 594 10, high_f := mkRat 756 10 }

/-- `sampleWeather` with a low of `-0.4` °F: negative, rounding to zero. -/
def negativeLowWeather : WeatherData :=
  { sampleWeather with low_f := mkRat (-4) 10 }

/-- The §8 sample provider response body, exactly the spec's JSON shape. -/
def sampleResponse : Json :=
  Json.obj
    [("main", Json.obj
        [("temp", Json.num 68), ("feels_like", Json.num 65), ("humidity", Json.int 55),
         ("temp_max", Json.num 74), ("temp_min", Json.num 58)]),
     ("weather", Json.arr [Json.obj
        [("description", Json.str "scattered clouds"), ("icon", Json.str "03d")]]),
     ("wind", Json.obj [("speed", Json.num 8)])]

/-- A response that is wrong-typed with respect to the spec's shape —
`main.humidity` is the float `55.7`, `weather[0].description` is the integer
`7` — used to probe whether wrong-typed fields are rejected or coerced. -/
def coercedResponse : Json :=
  Json.obj
    [("main", Json.obj
        [("temp", Json.num 68), ("feels_like", Json.num 65),
         ("humidity", Json.num (mkRat 557 10)),
         ("temp_max", Json.num 74), ("temp_min", Json.num 58)]),
     ("weather", Json.arr [Json.obj
        [("description", Json.int 7), ("icon", Json.str "03d")]]),
     ("wind", Json.obj [("speed", Json.num 8)])]

/-- A settings snapshot as built in the repository's test fixtures. -/
def sampleSettings : Settings :=
  ⟨"fake-token", 123456789, "fake-weather-key", "fake-anthropic-key",
   defaultLatitude, defaultLongitude, defaultCityName, 7, 0⟩

/-- A process environment defining exactly the four required variables. -/
def sampleEnv : Env := fun k =>
  if k = "DISCORD_TOKEN" then some "fake-token"
  else if k = "DISCORD_CHANNEL_ID" then some "123456789"
  else if k = "OPENWEATHER_API_KEY" then some "fake-weather-key"
  else if k = "ANTHROPIC_API_KEY" then some "fake-anthropic-key"
  else none

/-- Command environment: every awaited call succeeds. -/
def cmdEnvSuccess : CmdEnv :=
  ⟨.ok (), .ok sampleWeather, .ok "The stars whisper of clouds.", .ok (), .ok ()⟩

/-- Command environment: the ack succeeds, the weather fetch raises a 500, and
sending the failure notice itself fails. -/
def cmdEnvFetchFails : CmdEnv :=
  ⟨.ok (), .error (.httpStatus 500), .ok "unused", .ok (), .error "notice send failed"⟩

/-- Tick environment: the channel resolves messageable and the pipeline
succeeds. -/
def tickEnvSuccess : TickEnv :=
  ⟨fun i => if i = 123456789 then some ⟨i, true⟩ else none,
   .ok sampleWeather, .ok "Morning wisdom from the Oracle.", .ok ()⟩

/-- Tick environment: the configured channel does not resolve. -/
def tickEnvNoChannel : TickEnv :=
  ⟨fun _ => none, .ok sampleWeather, .ok "unused", .ok ()⟩

/-- Tick environment: the channel resolves but the weather fetch times out. -/
def tickEnvFetchFails : TickEnv :=
  ⟨fun i => some ⟨i, true⟩, .error (.network "timeout"), .ok "unused", .ok ()⟩

/-- A provider whose first call returns a successful response with zero
content blocks. -/
def providerEmptyContent : ClaudeRequest → Nat → Except String ClaudeResponse :=
  fun _ _ => .ok ⟨[]⟩

/-! ## Theorems -/

/-- `Rat.floor` agrees with Mathlib's `⌊·⌋` on `ℚ`. -/
theorem ratFloor_eq_intFloor (q : ℚ) : Rat.floor q = ⌊q⌋ := by
  rw [Rat.floor_def', Rat.floor_def]

/-- `roundHalfEven` is a nearest-integer rounding: it never moves a value by
more than `1/2`. -/
theorem roundHalfEven_nearest (q : ℚ) : |q - (roundHalfEven q : ℚ)| ≤ 1/2 := by
  have hden : (0:ℚ) < (q.den : ℚ) := by exact_mod_cast q.den_pos
  have hnum : (q.num : ℚ) = q * (q.den : ℚ) :=
    (div_eq_iff (ne_of_gt hden)).mp (Rat.num_div_den q)
  have hfl : ((⌊q⌋ : Int) : ℚ) ≤ q := Int.floor_le q
  have hfu : q < (⌊q⌋ : Int) + 1 := Int.lt_floor_add_one q
  have hr : ((2 * q.num - 2 * ⌊q⌋ * (q.den : Int) : Int) : ℚ)
      = 2 * (q.den : ℚ) * (q - (⌊q⌋ : ℚ)) := by
    push_cast
    rw [hnum]; ring
  unfold roundHalfEven
  rw [ratFloor_eq_intFloor]
  split
  · next h =>
    have h2 : ((2 * q.num - 2 * ⌊q⌋ * (q.den : Int) : Int) : ℚ) < (q.den : ℚ) := by
      exact_mod_cast h
    rw [hr] at h2
    rw [abs_le]
    constructor <;> nlinarith
  · next h1 =>
    have h2 : (q.den : ℚ) ≤ ((2 * q.num - 2 * ⌊q⌋ * (q.den : Int) : Int) : ℚ) := by
      exact_mod_cast not_lt.mp h1
    rw [hr] at h2
    split
    · next h3 =>
      have h4 : (q.den : ℚ) < ((2 * q.num - 2 * ⌊q⌋ * (q.den : Int) : Int) : ℚ) := by
        exact_mod_cast h3
      rw [hr] at h4
      rw [abs_le]
      push_cast
      constructor <;> nlinarith
    · next h3 =>
      have h4 : ((2 * q.num - 2 * ⌊q⌋ * (q.den : Int) : Int) : ℚ) ≤ (q.den : ℚ) := by
        exact_mod_cast not_lt.mp h3
      rw [hr] at h4
      have heq : q - (⌊q⌋ : ℚ) = 1/2 := by nlinarith
      split
      · rw [abs_le]; constructor <;> linarith
      · rw [abs_le]; push_cast; constructor <;> linarith

/-- `roundHalfEven` breaks exact halves toward the even integer. -/
theorem roundHalfEven_tie (q : ℚ) (h : q - (⌊q⌋ : ℚ) = 1/2) :
    roundHalfEven q % 2 = 0 := by
  have hden : (0:ℚ) < (q.den : ℚ) := by exact_mod_cast q.den_pos
  have hnum : (q.num : ℚ) = q * (q.den : ℚ) :=
    (div_eq_iff (ne_of_gt hden)).mp (Rat.num_div_den q)
  have hr : ((2 * q.num - 2 * ⌊q⌋ * (q.den : Int) : Int) : ℚ) = (q.den : ℚ) := by
    push_cast
    rw [hnum]
    nlinarith
  have hr2 : (2 * q.num - 2 * ⌊q⌋ * (q.den : Int) : Int) = (q.den : Int) := by
    exact_mod_cast hr
  unfold roundHalfEven
  rw [ratFloor_eq_intFloor, hr2]
  simp only [lt_irrefl, if_false]
  split
  · next he => exact he
  · next he => omega

/-- C7 counterexample: at `lowF = -0.4`, `highF = 74.0` the summary produced
by the code is `"-0°F – 74°F"`, while `round(lowF) + "°F – " + round(highF) +
"°F"` is `"0°F – 74°F"` (any nearest-integer rounding sends `-0.4` to the
integer `0`, whose decimal string has no sign) — so the claimed equation
fails on this record. -/
theorem c7_counterexample :
    negativeLowWeather.temp_range_summary = "-0°F – 74°F" ∧
    roundHalfEven negativeLowWeather.low_f = 0 ∧
    roundHalfEven negativeLowWeather.high_f = 74 ∧
    negativeLowWeather.temp_range_summary ≠
      toString (roundHalfEven negativeLowWeather.low_f) ++ "°F – " ++
      toString (roundHalfEven negativeLowWeather.high_f) ++ "°F" :=
  ⟨by decide, by decide, by decide, by decide⟩

/-- C7 (amended): the range summary is `round(lowF) + "°F – " + round(highF) +
"°F"` with each bound rounded to the nearest integer independently under
round-half-to-even, except that fixed-point formatting renders a negative
bound that rounds to zero as `"-0"`; `(59.4, 75.6)` yields `"59°F – 76°F"`. -/
theorem c7_temp_range_summary (w : WeatherData)
    (hlow : ¬(roundHalfEven w.low_f = 0 ∧ w.low_f < 0))
    (hhigh : ¬(roundHalfEven w.high_f = 0 ∧ w.high_f < 0)) :
    w.temp_range_summary =
      toString (roundHalfEven w.low_f) ++ "°F – " ++
      toString (roundHalfEven w.high_f) ++ "°F" ∧
    (∀ q : ℚ, |q - (roundHalfEven q : ℚ)| ≤ 1/2) ∧
    (∀ q : ℚ, q - (⌊q⌋ : ℚ) = 1/2 → roundHalfEven q % 2 = 0) ∧
    roundingExampleWeather.temp_range_summary = "59°F – 76°F" := by
  refine ⟨?_, roundHalfEven_nearest, roundHalfEven_tie, by decide⟩
  simp [WeatherData.temp_range_summary, pyFormatDot0f, hlow, hhigh]

/-- Witness for C7's amended theorem at the spec's sample record. -/
theorem c7_witness :
    sampleWeather.temp_range_summary =
      toString (roundHalfEven sampleWeather.low_f) ++ "°F – " ++
      toString (roundHalfEven sampleWeather.high_f) ++ "°F" :=
  (c7_temp_range_summary sampleWeather (by decide) (by decide)).1

/-- C8: `_build_embed` is deterministic — equal `(message, weather)` inputs
give byte-identical payloads — and the payload is exactly the fixed title,
the message verbatim, the purple accent colour, the icon-derived thumbnail
URL, the three summary fields (rounded range, `{int}%` humidity, rounded
`mph` wind) and the city footer, with no timestamp, randomness or other
hidden input. -/
theorem c8_build_embed_deterministic (m : String) (w : WeatherData)
    (m2 : String) (w2 : WeatherData) (hm : m = m2) (hw : w = w2) :
    build_embed m w = build_embed m2 w2 ∧
    build_embed m w =
      { title := "🔮 The Oracle Speaks"
        description := m
        color := 0x9b59b6
        thumbnail_url := "https://openweathermap.org/img/wn/" ++ w.icon ++ "@2x.png"
        fields :=
          [⟨"🌡️ Temperature", w.temp_range_summary, true⟩,
           ⟨"💧 Humidity", toString w.humidity ++ "%", true⟩,
           ⟨"💨 Wind", pyFormatDot0f w.wind_speed_mph ++ " mph", true⟩]
        footer_text := "Weather for " ++ w.city ++ " • Blessed be your day ✨" } := by
  subst hm; subst hw
  exact ⟨rfl, rfl⟩

/-- Witness for C8 at the spec's sample inputs. -/
theorem c8_witness :
    build_embed "The mists part." sampleWeather = build_embed "The mists part." sampleWeather :=
  (c8_build_embed_deterministic "The mists part." sampleWeather
     "The mists part." sampleWeather rfl rfl).1

/-- C9: constructing `Settings` succeeds exactly when `morning_hour ∈ [0,23]`
and `morning_minute ∈ [0,59]` (out-of-range values raise `ValueError` at
construction), and a successful construction stores the given values
unchanged — nothing is clamped. -/
theorem c9_settings_validated_at_construction (t : String) (ch : Int)
    (ow an : String) (lat lon : ℚ) (city : String) (h m : Int) :
    ((Settings.make t ch ow an lat lon city h m).isOk = true ↔
      (0 ≤ h ∧ h ≤ 23 ∧ 0 ≤ m ∧ m ≤ 59)) ∧
    (∀ s, Settings.make t ch ow an lat lon city h m = .ok s →
      s.morning_hour = h ∧ s.morning_minute = m) := by
  unfold Settings.make
  by_cases h1 : 0 ≤ h ∧ h ≤ 23
  · by_cases h2 : 0 ≤ m ∧ m ≤ 59
    · simp [h1, h2, Except.isOk, Except.toBool]
    · simp [h1, h2, Except.isOk, Except.toBool]
  · simp [h1, Except.isOk, Except.toBool]
    tauto

/-- The stored default latitude is the source's literal `37.3382`. -/
theorem defaultLatitude_eq : defaultLatitude = (37.3382 : ℚ) := by
  norm_num [defaultLatitude, Rat.mkRat_eq_div]

/-- The stored default longitude is the source's literal `-121.8863`. -/
theorem defaultLongitude_eq : defaultLongitude = (-121.8863 : ℚ) := by
  norm_num [defaultLongitude, Rat.mkRat_eq_div]

/-- C10: `Settings.from_env` passes only the four required variables on to the
constructor, so every successfully built snapshot carries the built-in
defaults for latitude, longitude, city name and trigger time, and the result
depends only on the values of those four variables — no other environment
variable can influence it. -/
theorem c10_from_env_reads_only_required (env : Env) :
    (∀ s, Settings.from_env env = .ok s →
      s.latitude = 37.3382 ∧ s.longitude = -121.8863 ∧
      s.city_name = "San Jose" ∧ s.morning_hour = 7 ∧ s.morning_minute = 0) ∧
    (∀ env2 : Env,
      env "DISCORD_TOKEN" = env2 "DISCORD_TOKEN" →
      env "DISCORD_CHANNEL_ID" = env2 "DISCORD_CHANNEL_ID" →
      env "OPENWEATHER_API_KEY" = env2 "OPENWEATHER_API_KEY" →
      env "ANTHROPIC_API_KEY" = env2 "ANTHROPIC_API_KEY" →
      Settings.from_env env = Settings.from_env env2) := by
  constructor
  · intro s hs
    unfold Settings.from_env Settings.make at hs
    repeat' split at hs
    any_goals cases hs
    exact ⟨defaultLatitude_eq, defaultLongitude_eq, rfl, rfl, rfl⟩
  · intro env2 e1 e2 e3 e4
    unfold Settings.from_env
    rw [e1, e2, e3, e4]

/-- Witness for C10 at a concrete four-variable environment. -/
theorem c10_witness :
    sampleSettings.latitude = 37.3382 ∧ sampleSettings.longitude = -121.8863 ∧
    sampleSettings.city_name = "San Jose" ∧ sampleSettings.morning_hour = 7 ∧
    sampleSettings.morning_minute = 0 :=
  (c10_from_env_reads_only_required sampleEnv).1 sampleSettings (by rfl)

/-- Witness for C9: in-range construction succeeds and stores `7:00`;
hour `24` is rejected. -/
theorem c9_witness :
    (Settings.make "fake-token" 123456789 "fake-weather-key" "fake-anthropic-key"
        defaultLatitude defaultLongitude defaultCityName 7 0).isOk = true ∧
    (sampleSettings.morning_hour = 7 ∧ sampleSettings.morning_minute = 0) ∧
    (Settings.make "fake-token" 123456789 "fake-weather-key" "fake-anthropic-key"
        defaultLatitude defaultLongitude defaultCityName 24 0).isOk = false := by
  refine ⟨?_, ?_, ?_⟩
  · exact (c9_settings_validated_at_construction "fake-token" 123456789
      "fake-weather-key" "fake-anthropic-key" defaultLatitude defaultLongitude
      defaultCityName 7 0).1.mpr (by decide)
  · exact (c9_settings_validated_at_construction "fake-token" 123456789
      "fake-weather-key" "fake-anthropic-key" defaultLatitude defaultLongitude
      defaultCityName 7 0).2 sampleSettings (by rfl)
  · decide

/-- C6: the forecast composer turns a successful provider response with zero
content segments into `EmptyResponseError` (not an empty-string success),
propagates a provider failure unchanged as `GenerationError`, and performs no
local retry — its result depends only on the first provider call. -/
theorem c6_composer_error_modes (w : WeatherData)
    (p : ClaudeRequest → Nat → Except String ClaudeResponse) :
    (∀ r, p (claude_request w) 0 = .ok r → r.content = [] →
      generate_forecast_message p w = .error .emptyResponse) ∧
    (∀ e, p (claude_request w) 0 = .error e →
      generate_forecast_message p w = .error (.generation e)) ∧
    (∀ p2 : ClaudeRequest → Nat → Except String ClaudeResponse,
      (∀ req, p2 req 0 = p req 0) →
      generate_forecast_message p2 w = generate_forecast_message p w) := by
  refine ⟨?_, ?_, ?_⟩
  · intro r hp hc
    simp [generate_forecast_message, hp, hc]
  · intro e hp
    simp [generate_forecast_message, hp]
  · intro p2 hagree
    simp [generate_forecast_message, hagree]

/-- Witness for C6: a provider returning a successful response with no
content blocks yields `EmptyResponseError`. -/
theorem c6_witness :
    generate_forecast_message providerEmptyContent sampleWeather = .error .emptyResponse :=
  (c6_composer_error_modes sampleWeather providerEmptyContent).1 ⟨[]⟩ rfl rfl

/-- C2: the slash command acknowledges (defers) strictly before any network
call — the ack is always the first boundary action — and when the ack and the
pipeline succeed there is exactly one follow-up delivery, carrying the embed
built from the generated message and the weather record. -/
theorem c2_command_ack_first_single_followup (env : CmdEnv) :
    (∃ rest, (weather_command env).2 = CmdAction.ack :: rest) ∧
    (∀ w msg, env.ack = .ok () → env.fetch = .ok w → env.gen = .ok msg →
      ((weather_command env).2.countP isFollowupEmbed = 1 ∧
       CmdAction.followupEmbed (build_embed msg w) ∈ (weather_command env).2)) := by
  obtain ⟨ack, fetch, gen, fu, notice⟩ := env
  constructor
  · cases ack <;> cases fetch <;> cases gen <;> cases fu <;>
      simp [weather_command]
  · intro w msg hack hfetch hgen
    subst hack; subst hfetch; subst hgen
    cases fu <;> simp [weather_command, isFollowupEmbed, List.countP, List.countP.go]

/-- Witness for C2 at a fully successful command environment. -/
theorem c2_witness :
    (weather_command cmdEnvSuccess).2.countP isFollowupEmbed = 1 ∧
    CmdAction.followupEmbed (build_embed "The stars whisper of clouds." sampleWeather) ∈
      (weather_command cmdEnvSuccess).2 :=
  (c2_command_ack_first_single_followup cmdEnvSuccess).2 sampleWeather
    "The stars whisper of clouds." rfl rfl rfl

/-- C3: on a scheduled tick, an unresolvable or non-postable channel makes the
tick a pure skip — no exception, only a warning logged, no call to the weather
client; a postable channel runs the full pipeline and delivers exactly once to
that channel. -/
theorem c3_tick_skip_or_single_delivery (settings : Settings) (env : TickEnv) :
    ((env.get_channel settings.discord_channel_id = none ∨
      (∃ ch, env.get_channel settings.discord_channel_id = some ch ∧
        ch.messageable = false)) →
      morning_forecast settings env = (none, [TickAction.logWarning])) ∧
    (∀ ch w msg, env.get_channel settings.discord_channel_id = some ch →
      ch.messageable = true → env.fetch = .ok w → env.gen = .ok msg →
      (morning_forecast settings env).2 =
        [TickAction.fetchWeather, TickAction.generateMessage,
         TickAction.channelSend ch.id (build_embed msg w)]) := by
  constructor
  · rintro (h | ⟨ch, h, hmsg⟩)
    · simp [morning_forecast, h]
    · simp [morning_forecast, h, hmsg]
  · intro ch w msg hch hmsg hfetch hgen
    cases hsend : env.send <;>
      simp [morning_forecast, hch, hmsg, hfetch, hgen, hsend]

/-- Witness for C3: a vanished channel yields a pure skip; a messageable
channel yields exactly the fetch–generate–send trace. -/
theorem c3_witness :
    morning_forecast sampleSettings tickEnvNoChannel = (none, [TickAction.logWarning]) ∧
    (morning_forecast sampleSettings tickEnvSuccess).2 =
      [TickAction.fetchWeather, TickAction.generateMessage,
       TickAction.channelSend 123456789
         (build_embed "Morning wisdom from the Oracle." sampleWeather)] :=
  ⟨(c3_tick_skip_or_single_delivery sampleSettings tickEnvNoChannel).1 (Or.inl rfl),
   (c3_tick_skip_or_single_delivery sampleSettings tickEnvSuccess).2
     ⟨123456789, true⟩ sampleWeather "Morning wisdom from the Oracle." rfl rfl rfl rfl⟩

/-- C4: every failure of the interactive pipeline is handled at the command
boundary — nothing escapes to the host runtime, even when sending the notice
itself fails — and exactly one generic user-facing notice is attempted, on the
follow-up channel when the ack had succeeded and on the initial (ephemeral)
response channel otherwise. -/
theorem c4_command_failure_single_notice (env : CmdEnv) (e : PipelineError)
    (h : (weather_command env).1 = .error e) :
    (handle_weather_invocation env).1 = none ∧
    (handle_weather_invocation env).2.countP isUserNotice = 1 ∧
    (env.ack.isOk = true →
      CmdAction.followupNotice ORACLE_FAILURE_NOTICE ∈ (handle_weather_invocation env).2) ∧
    (env.ack.isOk = false →
      CmdAction.responseNotice ORACLE_FAILURE_NOTICE true ∈ (handle_weather_invocation env).2) := by
  obtain ⟨ack, fetch, gen, fu, notice⟩ := env
  cases ack <;> cases fetch <;> cases gen <;> cases fu <;> cases notice <;>
    simp_all [handle_weather_invocation, weather_command, weather_error,
      response_is_done, isUserNotice, Except.isOk, Except.toBool,
      List.countP, List.countP.go]

/-- Witness for C4: fetch raises a 500 and the notice send itself fails, yet
nothing escapes and exactly one notice was attempted. -/
theorem c4_witness :
    (handle_weather_invocation cmdEnvFetchFails).1 = none ∧
    (handle_weather_invocation cmdEnvFetchFails).2.countP isUserNotice = 1 :=
  ⟨(c4_command_failure_single_notice cmdEnvFetchFails (.fetch (.httpStatus 500)) rfl).1,
   (c4_command_failure_single_notice cmdEnvFetchFails (.fetch (.httpStatus 500)) rfl).2.1⟩

/-- C1: the scheduled-loop boundary catches every tick failure — the loop
state (armed / not cancelled) is untouched, no exception escapes the tick
handler, the next tick is still due 24 hours later, and a raised tick is
logged by the loop's error callback. -/
theorem c1_loop_survives_tick_failure (st : LoopState) (settings : Settings)
    (env : TickEnv) :
    (loop_tick st settings env).1 = st ∧
    (loop_tick st settings env).2.1 = none ∧
    (loop_tick st settings env).2.2.1 = 24 ∧
    (∀ e, (morning_forecast settings env).1 = some e →
      TickAction.logTickError ∈ (loop_tick st settings env).2.2.2) := by
  rcases h : morning_forecast settings env with ⟨raised, acts⟩
  cases raised <;>
    simp [loop_tick, h, loop_interval_hours, on_morning_forecast_error]

/-- Witness for C1: a tick whose weather fetch times out leaves the loop
armed, escapes nothing, reschedules in 24 hours, and logs the error. -/
theorem c1_witness :
    (loop_tick ⟨true, false⟩ sampleSettings tickEnvFetchFails).1 = ⟨true, false⟩ ∧
    (loop_tick ⟨true, false⟩ sampleSettings tickEnvFetchFails).2.1 = none ∧
    (loop_tick ⟨true, false⟩ sampleSettings tickEnvFetchFails).2.2.1 = 24 ∧
    TickAction.logTickError ∈ (loop_tick ⟨true, false⟩ sampleSettings tickEnvFetchFails).2.2.2 :=
  ⟨(c1_loop_survives_tick_failure ⟨true, false⟩ sampleSettings tickEnvFetchFails).1,
   (c1_loop_survives_tick_failure ⟨true, false⟩ sampleSettings tickEnvFetchFails).2.1,
   (c1_loop_survives_tick_failure ⟨true, false⟩ sampleSettings tickEnvFetchFails).2.2.1,
   (c1_loop_survives_tick_failure ⟨true, false⟩ sampleSettings tickEnvFetchFails).2.2.2
     (.fetch (.network "timeout")) rfl⟩

/-- C5 counterexample: `coercedResponse` is wrong-typed with respect to the
spec's shape (`main.humidity` is the float `55.7`, `weather[0].description`
the integer `7`), yet a 2xx fetch of it does not fail: Python's `int(…)`
truncates the float to `55` and `str(…)` renders the integer as `"7"`, so the
record is built — wrong-typed fields are coerced, not rejected. -/
theorem c5_counterexample :
    specWellTyped coercedResponse = false ∧
    get_current_weather "San Jose" (.ok (200, coercedResponse)) =
      .ok ⟨"San Jose", 68, 65, 55, "7", 8, 74, 58, "03d"⟩ :=
  ⟨by decide, by rfl⟩

set_option maxHeartbeats 1000000 in
/-- C5 (amended): on a 2xx response the fetch succeeds exactly when `main`,
`weather[0]` and `wind` subscript successfully and every leaf coerces under
Python `float(…)`/`int(…)`/`str(…)` — absence or a non-coercible value raises
(`MalformedResponseError`), while coercible wrong-typed values (numeric
strings, bools, non-integral floats, any value for the string fields) are
converted; the `city` of the resulting record is always the client's
configured display name, never taken from the response. -/
theorem c5_parse_accepts_iff_coercible (city : String) (data : Json) :
    ((parse_weather_data city data).isSome = implAccepts data) ∧
    (∀ w, parse_weather_data city data = some w → w.city = city) := by
  constructor
  · unfold parse_weather_data implAccepts
    cases hm : data.getItem "main" with
    | none => rfl
    | some main =>
      simp only [Option.some_bind]
      cases hwa : data.getItem "weather" with
      | none => rfl
      | some weatherArr =>
        simp only [Option.some_bind]
        cases hw0 : weatherArr.getIndex 0 with
        | none => rfl
        | some w0 =>
          simp only [Option.some_bind]
          cases hwind : data.getItem "wind" with
          | none => rfl
          | some wind =>
            simp only [Option.some_bind]
            cases ht : (main.getItem "temp").bind pyFloat with
            | none => rfl
            | some t =>
              simp only [Option.some_bind]
              cases hf : (main.getItem "feels_like").bind pyFloat with
              | none => rfl
              | some f =>
                simp only [Option.some_bind]
                cases hh : (main.getItem "humidity").bind pyInt with
                | none => rfl
                | some hum =>
                  simp only [Option.some_bind]
                  cases hd : w0.getItem "description" with
                  | none => rfl
                  | some d =>
                    simp only [Option.some_bind]
                    cases hws : (wind.getItem "speed").bind pyFloat with
                    | none => rfl
                    | some ws =>
                      simp only [Option.some_bind]
                      cases hhi : (main.getItem "temp_max").bind pyFloat with
                      | none => rfl
                      | some hi =>
                        simp only [Option.some_bind]
                        cases hlo : (main.getItem "temp_min").bind pyFloat with
                        | none => rfl
                        | some lo =>
                          simp only [Option.some_bind]
                          cases hic : w0.getItem "icon" with
                          | none => rfl
                          | some ic => rfl
  · intro w hpw
    simp only [parse_weather_data, Option.bind_eq_some, Option.some.injEq] at hpw
    obtain ⟨main, hmain, weatherArr, hwa, w0, hw0, wind, hwind, t, ht, f, hf,
      hum, hhum, d, hd, ws, hws, hi, hhi, lo, hlo, ic, hic, heq⟩ := hpw
    subst heq
    rfl

/-- Witness for C5's amended theorem: the spec's §8 sample response parses to
the sample record, whose city is the configured `"San Jose"`. -/
theorem c5_witness :
    sampleWeather.city = "San Jose" ∧ implAccepts sampleResponse = true :=
  ⟨(c5_parse_accepts_iff_coercible "San Jose" sampleResponse).2 sampleWeather (by rfl),
   by decide⟩

end WeatherFriend
